import Mathlib

/-!
Shallow embedding of `envcheck.py` (a single-shot environment/readiness
checker) and verification of its natural-language specification.

The program is modelled as pure Lean functions over an oracle `World`
that supplies the results of every external interaction (filesystem
queries, `shlex.split`, `shutil.which`, subprocess outcomes).  Python
strings are Lean `String`s; Python `Optional` is `Option`; a Python
call that may raise inside a `try` block is an oracle returning
`Option`/`Except`; an uncaught exception is a distinguished `crashed`
outcome of the whole program.  The fact log is a `Log` value threaded
through the pipeline; since no code path ever reads the log, each
component is modelled as returning the list of lines it attempts to
add, in program order, and the final `Log` is the fold of `Log.add`
over those lines.
-/

namespace Envcheck

/-- Characters for which Python's `str.isspace()` is true (ASCII range;
the program's inputs are shell arguments and file names). -/
def pyIsSpace (c : Char) : Bool :=
  c = ' ' || c = '\t' || c = '\n' || c = '\r' || c = '\x0b' || c = '\x0c'

/-- Models Python `str.strip()` on the character list. -/
def stripL (l : List Char) : List Char :=
  ((l.dropWhile pyIsSpace).reverse.dropWhile pyIsSpace).reverse

/-- Models Python `str.strip()`. -/
def pyStrip (s : String) : String := String.mk (stripL s.toList)

/-- Models Python `pat in s` (substring containment) on char lists. -/
def subOccurs (pat : List Char) : List Char → Bool
  | [] => pat.isPrefixOf []
  | c :: cs => pat.isPrefixOf (c :: cs) || subOccurs pat cs

/-- Models Python `pat in s` (substring containment). -/
def strContains (s pat : String) : Bool := subOccurs pat.toList s.toList

/-- Models Python `s.startswith(pre)`. -/
def strStartsWith (s pre : String) : Bool := pre.toList.isPrefixOf s.toList

/-- Models Python `s.endswith(suf)`. -/
def strEndsWith (s suf : String) : Bool := suf.toList.isSuffixOf s.toList

/-- Models Python `s.lower()` (ASCII case folding). -/
def lowerStr (s : String) : String := String.mk (s.toList.map Char.toLower)

/-- The characters of `s` strictly before the first occurrence of `pat`;
if `pat` does not occur, all of `s`.  Models `s.split(pat)[0]` /
`s.split(pat, 1)[0]` for a non-empty separator `pat`. -/
def takeBeforeSubL (pat : List Char) : List Char → List Char
  | [] => []
  | c :: cs => if pat.isPrefixOf (c :: cs) then [] else c :: takeBeforeSubL pat cs

/-- Models `s.split(pat)[0]` for a non-empty separator. -/
def takeBeforeSub (s pat : String) : String :=
  String.mk (takeBeforeSubL pat.toList s.toList)

/-- Models Python `x or default` for an optional string (`None` and the
empty string are both falsy). -/
def pyOr (o : Option String) (d : String) : String :=
  match o with
  | none => d
  | some s => if s = "" then d else s

/-- Models `str(base / name)` for a relative child of a directory. -/
def pjoin (base name : String) : String := base ++ "/" ++ name

/-- Models `Path(s).name`: the final path component. -/
def basenameL (s : String) : List Char :=
  (s.toList.reverse.takeWhile (fun c => c ≠ '/')).reverse

/-- Models `Path(s).suffix.lower()`: the final extension of the last
component (empty when the name has no dot, starts with its only dot, or
ends with a dot), lowercased. -/
def pathSuffixLower (s : String) : String :=
  let b := basenameL s
  let revAfter := b.reverse.takeWhile (fun c => c ≠ '.')
  if revAfter ≠ [] ∧ revAfter.length + 2 ≤ b.length then
    lowerStr (String.mk ('.' :: revAfter.reverse))
  else ""

/-! ### The fact log (source: class `Log`, lines 46-61) -/

/-- Source constant `LOG_MAX_LINES = 10`. -/
def LOG_MAX_LINES : Nat := 10

/-- Source constant `RUN_TIMEOUT_SECONDS = 3.0` (the single-run wait
ceiling, in seconds). -/
def RUN_TIMEOUT_SECONDS : ℚ := 3

/-- Models `line.strip().replace("\n", " ")[:240]` from `Log.add`. -/
def sanitizeLine (line : String) : String :=
  String.mk (((stripL line.toList).map (fun c => if c = '\n' then ' ' else c)).take 240)

/-- The in-memory fact log: the `lines` list of class `Log`. -/
structure Log where
  lines : List String
deriving DecidableEq

/-- Models `Log.add`: append the sanitized line only while capacity (10)
has not been reached; otherwise silently drop. -/
def Log.add (lg : Log) (line : String) : Log :=
  if lg.lines.length < LOG_MAX_LINES then ⟨lg.lines ++ [sanitizeLine line]⟩ else lg

/-- Folds `Log.add` over a list of lines in program order. -/
def Log.addAll (lg : Log) (ls : List String) : Log := ls.foldl Log.add lg

/-! ### Input classifier (source: `unquote_if_wrapped`, `is_command_input`,
lines 76-102).  `ex` models `Path(s).exists()` wrapped in `try`:
`some b` is a normal answer, `none` is a raised exception. -/

/-- The wrapped-in-matching-quotes test of `unquote_if_wrapped`:
`len(s) >= 2 and s[0] in ("'", '"') and s[-1] == s[0]`. -/
def wrappedCond (cs : List Char) : Bool :=
  decide (cs.length ≥ 2) && (cs.headD ' ' == Char.ofNat 39 || cs.headD ' ' == '"')
    && (cs.getLastD ' ' == cs.headD ' ')

/-- Models `unquote_if_wrapped`: if the stripped string is wrapped in a
matching pair of single or double quotes, return the content and `true`;
otherwise return the original argument and `false`. -/
def unquote_if_wrapped (raw : String) : String × Bool :=
  let cs := (pyStrip raw).toList
  if wrappedCond cs then (String.mk (cs.drop 1).dropLast, true)
  else (raw, false)

/-- Models a `try: if Path(x).exists(): return False / except: pass /
return True` block of `is_command_input`: only a definite
`exists() == True` answer classifies as a path. -/
def existsToCommand : Option Bool → Bool
  | some true => false
  | _ => true

/-- Models `is_command_input` (decides command vs path). -/
def is_command_input (ex : String → Option Bool) (raw0 : String) : Bool :=
  let raw := pyStrip raw0
  let uw := unquote_if_wrapped raw
  if uw.2 then existsToCommand (ex uw.1)
  else if raw.toList.any pyIsSpace then existsToCommand (ex raw)
  else false

/-! ### Oracles for the outside world -/

/-- The visible children of one directory: each entry is a name paired
with whether it is a regular file (`true`) or some other kind of entry,
e.g. a subdirectory (`false`).  Models what `(d / name).exists()` /
`.is_file()` and `d.glob(...)` observe for children of `d`. -/
structure DirListing where
  entries : List (String × Bool)
deriving DecidableEq

/-- `name` exists under the listing and is a regular file
(models `p.exists() and p.is_file()` for a child). -/
def DirListing.hasRegularFile (L : DirListing) (name : String) : Bool :=
  L.entries.any (fun e => e.1 == name && e.2)

/-- Names of all entries (of any type) matching the glob `*{ext}`:
`Path.glob` matches by name only and does not restrict to regular
files. -/
def DirListing.globExtNames (L : DirListing) (ext : String) : List String :=
  (L.entries.filter (fun e => strEndsWith e.1 ext)).map Prod.fst

/-- Python string `<`: lexicographic comparison by code point. -/
def lexLtL : List Char → List Char → Bool
  | [], [] => false
  | [], _ :: _ => true
  | _ :: _, [] => false
  | a :: as, b :: bs =>
    if a.toNat < b.toNat then true
    else if b.toNat < a.toNat then false
    else lexLtL as bs

/-- Python string `<` on strings. -/
def strLt (a b : String) : Bool := lexLtL a.toList b.toList

/-- `matches[0]` of `sorted(d.glob(...))`: the lexicographically least
name, if any (Python sorts sibling `Path`s by their name string). -/
def lexMin : List String → Option String
  | [] => none
  | x :: xs => some (xs.foldl (fun a b => if strLt b a then b else a) x)

/-- Outcome of waiting on a spawned process
(source: `proc.wait(timeout=RUN_TIMEOUT_SECONDS)` in `run_attempt`).
`exited code` means the process exited within the timeout with that
return code; `timeoutExpired` means it was still running at timeout
expiry; `waitError` is any other exception from the wait. -/
inductive WaitOutcome where
  | exited (code : ℤ)
  | timeoutExpired
  | waitError
deriving DecidableEq

/-- Outcome of one `subprocess.Popen` spawn attempt: the spawn itself
may raise `FileNotFoundError`, raise some other exception, or succeed
and then be waited on. -/
inductive SpawnOutcome where
  | fileNotFound
  | spawnError
  | spawned (w : WaitOutcome)
deriving DecidableEq

/-- One subprocess creation attempt made by the program, in order:
either the runtime version probe (`[exe, "--version"]`, from
`get_runtime_version`) or the single run attempt (from `run_attempt`,
with its command line and working directory). -/
inductive SpawnEvent where
  | versionProbe (cmd : List String) (result : Option String)
  | run (cmd : List String) (cwd : Option String) (outcome : SpawnOutcome)
deriving DecidableEq

/-- Oracle for every external interaction of one invocation. -/
structure World where
  /-- `Path(s).exists()` at call sites wrapped in `try`: `none` models a
  raised exception (observed by the caller), `some b` a normal answer. -/
  fsExists : String → Option Bool
  /-- `Path(s).is_file()` (call sites that do not catch exceptions). -/
  isFile : String → Bool
  /-- `Path(s).is_dir()` (call sites that do not catch exceptions). -/
  isDir : String → Bool
  /-- `Path(s).exists()` at call sites with no `try` around them. -/
  pexists : String → Bool
  /-- The children of a directory path (for child existence checks and
  `glob`). -/
  listing : String → DirListing
  /-- `f.open(...).readline()` on a candidate entry point: `none` models
  a raised exception (the code then uses `""`). -/
  firstLine : String → Option String
  /-- `os.access(f, os.X_OK)`: `none` models a raised exception. -/
  xok : String → Option Bool
  /-- `shlex.split(raw)`: `Except.error` models a raised `ValueError`. -/
  tokenize : String → Except Unit (List String)
  /-- `shutil.which(name)`. -/
  which : String → Option String
  /-- `subprocess.run([exe, "--version"], ...)` in `get_runtime_version`:
  `none` models any raised exception, `some raw` the combined
  `proc.stdout or proc.stderr` text. -/
  versionOut : String → Option String
  /-- `platform.system().lower() + "_" + platform.machine().lower()`:
  `none` models a raised exception (the `try` then skips the fact). -/
  platformStr : Option String
  /-- `req.read_text(...).splitlines()`: `Except.error` models a raised
  exception while reading `requirements.txt`. -/
  readLines : String → Except Unit (List String)
  /-- `importlib.util.find_spec(mod)`: `ok true` = a spec was found,
  `ok false` = `None`, `error` = a raised exception. -/
  findSpec : String → Except Unit Bool
  /-- The fate of the single run attempt `subprocess.Popen(cmd, cwd=...)`
  followed by the bounded wait. -/
  runOutcome : List String → Option String → SpawnOutcome

/-! ### Target resolution (source: `Target`, `guess_runtime_from_command`,
`find_entrypoint_in_dir`, `guess_runtime_from_file`, `_dir_has`,
`_dir_has_any_py`, `classify_project_dir`, `parse_target`,
lines 36-241) -/

/-- The resolved target (dataclass `Target`). -/
structure Target where
  kind : String
  path : Option String := none
  command : Option (List String) := none
  entrypoint : Option String := none
  runtime : Option String := none
  project_type : String := "unknown"
deriving DecidableEq

/-- Source constant `ENTRYPOINT_PATTERNS`. -/
def ENTRYPOINT_PATTERNS : List String :=
  ["main.py", "run.py", "app.py", "index.js", "main.js", "run.sh", "main.sh", "main.go"]

/-- Models `guess_runtime_from_command`: runtime from the lowercased
basename of the first token. -/
def guess_runtime_from_command (cmd : List String) : String :=
  let head := lowerStr (String.mk (basenameL (cmd.headD "")))
  if head = "python" || head = "python3" || head = "py" then "python"
  else if head = "node" then "node"
  else if head = "bash" || head = "sh" then "bash"
  else if head = "go" then "go"
  else "unknown"

/-- Models `find_entrypoint_in_dir`: the first priority name present as
a regular file; else the first extension among `.sh`, `.js`, `.go`
whose glob has any match, taking the lexicographically least match
(the glob does not require a regular file).  Returns the joined path
plus the log lines attempted. -/
def find_entrypoint_in_dir (w : World) (d : String) : Option String × List String :=
  let L := w.listing d
  match ENTRYPOINT_PATTERNS.find? (fun n => L.hasRegularFile n) with
  | some n => (some (pjoin d n), ["entrypoint: " ++ n])
  | none =>
    match [".sh", ".js", ".go"].findSome? (fun ext => lexMin (L.globExtNames ext)) with
    | some n => (some (pjoin d n), ["entrypoint: " ++ n])
    | none => (none, ["entrypoint: none"])

/-- Models `guess_runtime_from_file`: extension table, then shebang
sniffing, else unknown.  Returns the runtime plus the log lines
attempted. -/
def guess_runtime_from_file (w : World) (f : String) : String × List String :=
  let ext := pathSuffixLower f
  if ext = ".py" then ("python", [])
  else if ext = ".js" then ("node", [])
  else if ext = ".sh" then
    ("bash",
      [match w.xok f with
       | some b => "executable: " ++ (if b then "yes" else "no")
       | none => "executable: unknown"])
  else if ext = ".go" then ("go", [])
  else
    let first := pyStrip ((w.firstLine f).getD "")
    if strStartsWith first "#!" then
      if strContains first "python" then ("python", [])
      else if strContains first "node" then ("node", [])
      else if strContains first "bash" || strContains first "/sh" then ("bash", [])
      else ("unknown", ["runtime: unknown"])
    else ("unknown", ["runtime: unknown"])

/-- Models `_dir_has`: the named child exists and is a regular file
(any exception yields `false`). -/
def dir_has (L : DirListing) (name : String) : Bool := L.hasRegularFile name

/-- Models `_dir_has_any_py`: `any(d.glob("*.py"))` — any entry of any
type whose name matches (any exception yields `false`). -/
def dir_has_any_py (L : DirListing) : Bool :=
  L.entries.any (fun e => strEndsWith e.1 ".py")

/-- Models `classify_project_dir`: runtime/projectType of a directory,
given its discovered entry point (if any).  Returns the pair plus the
log lines attempted. -/
def classify_project_dir (w : World) (d : String) (ep : Option String) :
    (String × String) × List String :=
  match ep with
  | some e =>
    let g := guess_runtime_from_file w e
    ((g.1, "app"), g.2)
  | none =>
    let L := w.listing d
    if dir_has L "package.json" then (("node", "library"), [])
    else if dir_has L "pyproject.toml" || dir_has_any_py L then
      if dir_has_any_py L then (("python", "library"), ["python_dir: py_files_present"])
      else (("python", "library"), [])
    else if dir_has L "go.mod" then (("go", "library"), [])
    else (("unknown", "unknown"), [])

/-- Models `' '.join(cmd[:6])` plus the `" ..."` marker from
`parse_target`'s command fact. -/
def joinFirst6 (cmd : List String) : String :=
  String.intercalate " " (cmd.take 6) ++ (if cmd.length > 6 then " ..." else "")

/-- The string `parse_target` works with after its quoted-path
unwrapping step: the stripped argument, replaced by the unquoted
content when that content exists (exceptions keep the stripped
argument). -/
def effRaw (w : World) (raw0 : String) : String :=
  let raw1 := pyStrip raw0
  let uw := unquote_if_wrapped raw1
  if uw.2 && (w.fsExists uw.1 == some true) then uw.1 else raw1

/-- Models `parse_target`: raw argument → `Target`, plus the log lines
attempted. -/
def parse_target (w : World) (raw0 : String) : Target × List String :=
  let raw := effRaw w raw0
  if is_command_input w.fsExists raw then
    match w.tokenize raw with
    | .error _ =>
      ({ kind := "command", runtime := some "unknown" }, ["command: parse_error"])
    | .ok [] =>
      ({ kind := "command", runtime := some "unknown" }, ["command: empty"])
    | .ok cmd =>
      ({ kind := "command", command := some cmd,
         runtime := some (guess_runtime_from_command cmd), project_type := "app" },
       ["input: command=" ++ joinFirst6 cmd])
  else if w.isFile raw then
    let g := guess_runtime_from_file w raw
    ({ kind := "file", path := some raw, entrypoint := some raw,
       runtime := some g.1, project_type := "app" },
     ["input: file=" ++ raw] ++ g.2)
  else if w.isDir raw then
    let fe := find_entrypoint_in_dir w raw
    let cl := classify_project_dir w raw fe.1
    ({ kind := "dir", path := some raw, entrypoint := fe.1,
       runtime := some cl.1.1, project_type := cl.1.2 },
     ["input: dir=" ++ raw] ++ fe.2 ++ cl.2)
  else
    ({ kind := "file", path := some raw, runtime := some "unknown" },
     ["input: not_found"])

/-! ### Environment verifier (source: `which_runtime`,
`get_runtime_version`, `detect_project_facts`,
`python_deps_probe_from_requirements`, lines 244-381) -/

/-- Models `which_runtime`: fixed search order per runtime name. -/
def which_runtime (w : World) (runtime : String) : Option String :=
  if runtime = "python" then
    match w.which "python3" with
    | some e => some e
    | none => w.which "python"
  else if runtime = "node" then w.which "node"
  else if runtime = "bash" then
    match w.which "bash" with
    | some e => some e
    | none => w.which "sh"
  else if runtime = "go" then w.which "go"
  else none

/-- The first line of a non-empty stripped output: models
`out.splitlines()[0]` (the output is stripped, so it does not start
with a line break). -/
def firstTextLine (s : String) : String :=
  String.mk (s.toList.takeWhile (fun c => !(c = '\n' || c = '\r' || c = '\x0b' || c = '\x0c')))

/-- Models the log lines of `get_runtime_version` (the `runtime`
parameter of the source function is unused by its body; the spawned
probe command `[exe, "--version"]` is recorded by the caller). -/
def get_runtime_version (w : World) (exe : String) : List String :=
  match w.versionOut exe with
  | none => ["runtime_version: error"]
  | some raw =>
    let out := pyStrip raw
    if out = "" then ["runtime_version: unknown"]
    else ["runtime_version: " ++ String.mk ((firstTextLine out).toList.take 120)]

/-- Models `Path(s).parent` for the path shapes the program builds:
drop the final component (`"."` for a bare name, `"/"` for a direct
child of the root). -/
def parentDir (s : String) : String :=
  let r := s.toList.reverse.dropWhile (fun c => c ≠ '/')
  if r = [] then "."
  else if r.drop 1 = [] then "/"
  else String.mk ((r.drop 1).reverse)

/-- Models the `base` computation shared by `detect_project_facts` and
`python_deps_probe_from_requirements`: the target's directory, else the
entry point's parent, else nothing. -/
def targetBase (t : Target) : Option String :=
  if t.kind = "dir" && t.path.isSome then t.path
  else
    match t.entrypoint with
    | some ep => some (parentDir ep)
    | none => none

/-- Models `present(p)` from `detect_project_facts`. -/
def presentStr (w : World) (p : String) : String :=
  if w.pexists p then "present" else "absent"

/-- Models `detect_project_facts`: the runtime-conditioned project
facts (log lines only; the function has no other effect). -/
def detect_project_facts (w : World) (t : Target) : List String :=
  match targetBase t with
  | none => []
  | some base =>
    let ptLines :=
      if t.project_type ≠ "unknown" then ["project_type: " ++ t.project_type] else []
    let venvPresent :=
      [".venv", "venv", "env"].any
        (fun n => w.pexists (pjoin base n) && w.isDir (pjoin base n))
    let anyLock :=
      w.pexists (pjoin base "package-lock.json") || w.pexists (pjoin base "yarn.lock")
        || w.pexists (pjoin base "pnpm-lock.yaml")
    let rt := pyOr t.runtime "unknown"
    let rtLines :=
      if rt = "python" then
        ["pyproject: " ++ presentStr w (pjoin base "pyproject.toml"),
         "requirements_txt: " ++ presentStr w (pjoin base "requirements.txt"),
         "venv: " ++ (if venvPresent then "present" else "absent")]
      else if rt = "node" then
        ["package_json: " ++ presentStr w (pjoin base "package.json"),
         "lockfile: " ++ (if anyLock then "present" else "absent"),
         "node_modules: " ++ presentStr w (pjoin base "node_modules")]
      else if rt = "go" then
        ["go_mod: " ++ presentStr w (pjoin base "go.mod")]
      else []
    ptLines ++ rtLines

/-- The version-specifier operators stripped by the probe, in source
order. -/
def reqOps : List String := ["==", ">=", "<=", "~=", ">", "<", "!="]

/-- Sequentially strips each present operator (and re-strips), as the
source's `for op in (...)` loop does. -/
def stripOps (name : String) : String :=
  reqOps.foldl
    (fun n op => if strContains n op then pyStrip (takeBeforeSub n op) else n) name

/-- Models the per-line package-name extraction of the probe, for a
stripped, non-skipped line `s`.  `Except.error` models the uncaught
`IndexError` from `name.split()[0]` when the part before `;` is empty
(i.e. `s` starts with `;`).  `ok none` models a name that strips to
the empty string and is not appended. -/
def parsePkgLine (s : String) : Except Unit (Option String) :=
  let name1 := pyStrip (takeBeforeSub s ";")
  if name1 = "" then .error ()
  else
    let tok := pyStrip (String.mk (name1.toList.takeWhile (fun c => !pyIsSpace c)))
    let name2 := if strContains tok "[" then takeBeforeSub tok "[" else tok
    let name3 := stripOps name2
    .ok (if name3 = "" then none else some name3)

/-- Models the probe's parsing loop over the requirement lines with the
`max_pkgs = 12` break; accumulates in reverse.  `Except.error` is the
uncaught `IndexError` escaping the whole program. -/
def collectPkgs : List String → List String → Except Unit (List String)
  | [], acc => .ok acc.reverse
  | ln :: rest, acc =>
    let s := pyStrip ln
    if s = "" || strStartsWith s "#" then collectPkgs rest acc
    else if strStartsWith s "-" || strContains s "://" || strStartsWith s "git+" then
      collectPkgs rest acc
    else
      match parsePkgLine s with
      | .error _ => .error ()
      | .ok name? =>
        let acc2 := match name? with | some n => n :: acc | none => acc
        if acc2.length ≥ 12 then .ok acc2.reverse else collectPkgs rest acc2

/-- Models the probe's import-check loop: counts checked packages and
collects missing ones; any `find_spec` exception aborts the loop. -/
def checkPkgs (w : World) : List String → Except Unit (Nat × List String)
  | [] => .ok (0, [])
  | p :: ps =>
    match w.findSpec (String.mk (p.toList.map (fun c => if c = '-' then '_' else c))) with
    | .error _ => .error ()
    | .ok found =>
      match checkPkgs w ps with
      | .error _ => .error ()
      | .ok (n, miss) => .ok (n + 1, if found then miss else p :: miss)

/-- Models `python_deps_probe_from_requirements`: log lines only, except
that `Except.error` models the uncaught `IndexError` raised while
parsing a requirement line whose part before `;` is empty. -/
def python_deps_probe_from_requirements (w : World) (t : Target) :
    Except Unit (List String) :=
  if t.runtime ≠ some "python" then .ok []
  else
    match targetBase t with
    | none => .ok []
    | some base =>
      let req := pjoin base "requirements.txt"
      if !(w.pexists req && w.isFile req) then .ok []
      else
        match w.readLines req with
        | .error _ => .ok ["deps_probe: requirements_read_error"]
        | .ok lines =>
          match collectPkgs lines [] with
          | .error _ => .error ()
          | .ok pkgs =>
            if pkgs = [] then .ok ["deps_probe: no_packages_parsed"]
            else
              match checkPkgs w pkgs with
              | .error _ => .ok ["deps_probe: error"]
              | .ok (checked, missing) =>
                let head :=
                  ["deps_probe: checked=" ++ toString checked
                    ++ " missing=" ++ toString missing.length]
                if missing = [] then head |> .ok
                else
                  .ok (head ++
                    ["deps_missing: " ++ String.intercalate "," (missing.take 6)
                      ++ (if missing.length > 6 then " ..." else "")])

/-! ### Run orchestrator (source: `check_entrypoint_exists`,
`build_run_command`, `run_attempt`, lines 384-465) -/

/-- Models `check_entrypoint_exists`. -/
def check_entrypoint_exists (w : World) (t : Target) : Bool × List String :=
  match t.entrypoint with
  | none => (false, ["entrypoint: missing"])
  | some ep =>
    if !w.pexists ep then (false, ["entrypoint: not_found"])
    else if !w.isFile ep then (false, ["entrypoint: not_file"])
    else (true, [])

/-- Models Python truthiness of `runtime_exe` (`None` and `""` falsy). -/
def exeTruthy : Option String → Option String
  | none => none
  | some e => if e = "" then none else some e

/-- Models `build_run_command`: the concrete command line for the
target, or `none` with the reason logged. -/
def build_run_command (w : World) (t : Target) (runtime_exe : Option String) :
    Option (List String) × List String :=
  if t.kind = "command" then
    match t.command with
    | none => (none, ["run: command_missing"])
    | some [] => (none, ["run: command_missing"])
    | some cmd => (some cmd, [])
  else
    match t.entrypoint with
    | none => (none, ["run: not_applicable"])
    | some ep =>
      let ck := check_entrypoint_exists w t
      if !ck.1 then (none, ck.2)
      else
        let rt := pyOr t.runtime "unknown"
        if rt = "python" || rt = "node" || rt = "bash" then
          match exeTruthy runtime_exe with
          | none => (none, ck.2 ++ ["runtime: missing"])
          | some e => (some [e, ep], ck.2)
        else if rt = "go" then
          match exeTruthy runtime_exe with
          | none => (none, ck.2 ++ ["runtime: missing"])
          | some e => (some [e, "run", ep], ck.2)
        else (none, ck.2 ++ ["runtime: unknown"])

/-- Models `run_attempt`: the boolean verdict of the single run plus
its log lines.  Spawn failures and wait errors yield `false`; exit
code 0 within the timeout, or still-running at timeout expiry, yield
`true` (termination of a timed-out process is best-effort and has no
modelled effect). -/
def run_attempt (w : World) (cmd : List String) (cwd : Option String) :
    Bool × List String :=
  match w.runOutcome cmd cwd with
  | .fileNotFound => (false, ["run: not_found"])
  | .spawnError => (false, ["run: spawn_error"])
  | .spawned (.exited code) => (decide (code = 0), ["run: exit_code=" ++ toString code])
  | .spawned .timeoutExpired => (true, ["run: timeout_running"])
  | .spawned .waitError => (false, ["run: wait_error"])

/-! ### Verdict emission and `main` (source: `fail`, `success`, `main`,
lines 64-73 and 468-517) -/

/-- How one invocation ends: `emitted line code` is the single verdict
line printed to standard output together with the process exit code
(the only emission points are `success` → `("SUCCESS", 0)` and `fail`
→ `("FAIL", 1)`); `crashed` is an uncaught exception (traceback on
standard error, no verdict line, the log file is never written). -/
inductive Outcome where
  | emitted (line : String) (exitCode : Nat)
  | crashed
deriving DecidableEq

/-- The observable result of one invocation: the outcome, the log lines
attempted in program order (the written log file is
`Log.addAll ⟨[]⟩` of these, when the outcome is `emitted`), and every
subprocess creation attempt in order. -/
structure MainResult where
  outcome : Outcome
  logLines : List String
  spawns : List SpawnEvent

/-- Models the body of `main` after the argument-count check, for the
single argument `arg`. -/
def mainPipeline (w : World) (arg : String) : MainResult :=
    let platLines :=
      match w.platformStr with
      | some s => ["platform: " ++ s]
      | none => []
    let pr := parse_target w arg
    let t := pr.1
    let lines0 := platLines ++ pr.2
    let rt := pyOr t.runtime "unknown"
    if rt = "unknown" then
      { outcome := .emitted "FAIL" 1, logLines := lines0 ++ ["runtime: unknown"],
        spawns := [] }
    else
      match which_runtime w rt with
      | none =>
        { outcome := .emitted "FAIL" 1, logLines := lines0 ++ ["runtime: missing"],
          spawns := [] }
      | some exe =>
        let vEv := SpawnEvent.versionProbe [exe, "--version"] (w.versionOut exe)
        let lines1 := lines0 ++ get_runtime_version w exe ++ detect_project_facts w t
        match python_deps_probe_from_requirements w t with
        | .error _ => { outcome := .crashed, logLines := lines1, spawns := [vEv] }
        | .ok probeLines =>
          let lines2 := lines1 ++ probeLines
          if t.project_type = "library" then
            { outcome := .emitted "SUCCESS" 0, logLines := lines2, spawns := [vEv] }
          else if t.kind = "command" then
            match build_run_command w t none with
            | (none, bLines) =>
              { outcome := .emitted "FAIL" 1, logLines := lines2 ++ bLines,
                spawns := [vEv] }
            | (some cmd, bLines) =>
              let rEv := SpawnEvent.run cmd none (w.runOutcome cmd none)
              let ra := run_attempt w cmd none
              { outcome := .emitted (if ra.1 then "SUCCESS" else "FAIL")
                  (if ra.1 then 0 else 1),
                logLines := lines2 ++ bLines ++ ra.2, spawns := [vEv, rEv] }
          else
            match build_run_command w t (some exe) with
            | (none, bLines) =>
              { outcome := .emitted "FAIL" 1, logLines := lines2 ++ bLines,
                spawns := [vEv] }
            | (some cmd, bLines) =>
              let cwd := if t.kind = "dir" then t.path else none
              let rEv := SpawnEvent.run cmd cwd (w.runOutcome cmd cwd)
              let ra := run_attempt w cmd cwd
              { outcome := .emitted (if ra.1 then "SUCCESS" else "FAIL")
                  (if ra.1 then 0 else 1),
                logLines := lines2 ++ bLines ++ ra.2, spawns := [vEv, rEv] }

/-- Models `main`: the whole pipeline for `argv[1:] = args` (the
argument-count check, then the body on the single argument). -/
def mainModel (w : World) (args : List String) : MainResult :=
  if args.length ≠ 1 then
    { outcome := .emitted "FAIL" 1, logLines := ["arg: missing_or_extra"], spawns := [] }
  else mainPipeline w (args.headD "")

/-! ### Claim-side definitions
These transcribe the spec's words (not the source) and are compared
against the source-derived definitions above. -/

/-- Spec wording for the input classifier: wrapped-in-matching-quotes ⇒
path exactly when the unquoted content exists (errors count as
nonexistence); unwrapped with whitespace ⇒ command unless the whole
trimmed string exists (errors count as "is a command"); otherwise
path. -/
def is_command_claim (ex : String → Option Bool) (raw : String) : Bool :=
  let t := pyStrip raw
  let cs := t.toList
  if wrappedCond cs then !(ex (String.mk (cs.drop 1).dropLast) == some true)
  else if cs.any pyIsSpace then !(ex t == some true)
  else false

/-- Spec wording for entry-point discovery (claim C5): first priority
name present as a regular file; else, for the first extension with any
match, the lexicographically first **regular file** matching the glob. -/
def entrypointClaim (L : DirListing) : Option String :=
  match ENTRYPOINT_PATTERNS.find? (fun n => L.hasRegularFile n) with
  | some n => some n
  | none =>
    [".sh", ".js", ".go"].findSome?
      (fun ext => lexMin ((L.entries.filter (fun e => strEndsWith e.1 ext && e.2)).map Prod.fst))

/-- Amended wording for entry-point discovery: as the claim, except the
fallback takes the lexicographically first directory **entry of any
type** matching the glob. -/
def entrypointAmended (L : DirListing) : Option String :=
  match ENTRYPOINT_PATTERNS.find? (fun n => L.hasRegularFile n) with
  | some n => some n
  | none => [".sh", ".js", ".go"].findSome? (fun ext => lexMin (L.globExtNames ext))

/-- Spec wording for manifest classification of an entry-point-less
directory (claim C6): `package.json` (regular file) ⇒ node/library;
else `pyproject.toml` (regular file) or any `*.py` **file** ⇒
python/library; else `go.mod` (regular file) ⇒ go/library; else
unknown/unknown. -/
def classifyDirClaim (L : DirListing) : String × String :=
  if L.hasRegularFile "package.json" then ("node", "library")
  else if L.hasRegularFile "pyproject.toml"
      || L.entries.any (fun e => strEndsWith e.1 ".py" && e.2) then
    ("python", "library")
  else if L.hasRegularFile "go.mod" then ("go", "library")
  else ("unknown", "unknown")

/-- Amended wording for manifest classification: as the claim, except
any directory **entry of any type** matching `*.py` counts. -/
def classifyDirAmended (L : DirListing) : String × String :=
  if L.hasRegularFile "package.json" then ("node", "library")
  else if L.hasRegularFile "pyproject.toml" || dir_has_any_py L then ("python", "library")
  else if L.hasRegularFile "go.mod" then ("go", "library")
  else ("unknown", "unknown")

/-- A string contains an ASCII control character (the claim C4 calls a
log entry "control-character-sanitized" when it contains none). -/
def containsControl (s : String) : Bool := s.toList.any (fun c => c.toNat < 32)

/-! ### Concrete worlds for witnesses and counterexamples -/

/-- A default world: nothing exists, nothing is found, everything
errors or is absent. -/
def w0 : World where
  fsExists := fun _ => some false
  isFile := fun _ => false
  isDir := fun _ => false
  pexists := fun _ => false
  listing := fun _ => ⟨[]⟩
  firstLine := fun _ => none
  xok := fun _ => none
  tokenize := fun _ => .ok []
  which := fun _ => none
  versionOut := fun _ => none
  platformStr := none
  readLines := fun _ => .error ()
  findSpec := fun _ => .ok true
  runOutcome := fun _ _ => .spawnError

/-- A world with a library-style directory `lib` containing only a
`package.json` regular file, with `node` installed. -/
def wLib : World :=
  { w0 with
    isDir := fun s => s == "lib"
    listing := fun s => if s == "lib" then ⟨[("package.json", true)]⟩ else ⟨[]⟩
    which := fun s => if s == "node" then some "/usr/bin/node" else none
    versionOut := fun _ => some "v20.0.0" }

/-- A world with a python app directory `app` containing `main.py` and
a `requirements.txt` whose only line is `;x`, with `python3`
installed. -/
def wReq : World :=
  { w0 with
    isDir := fun s => s == "app"
    isFile := fun s => s == "app/requirements.txt"
    pexists := fun s => s == "app/requirements.txt"
    listing := fun s =>
      if s == "app" then ⟨[("main.py", true), ("requirements.txt", true)]⟩ else ⟨[]⟩
    which := fun s => if s == "python3" then some "/usr/bin/python3" else none
    versionOut := fun _ => some "Python 3.11.9"
    readLines := fun s => if s == "app/requirements.txt" then .ok [";x"] else .error () }

/-- A world in which the directory `d` contains a subdirectory named
`a.sh` and a regular file `b.sh`. -/
def wShDir : World :=
  { w0 with
    isDir := fun s => s == "d"
    listing := fun s => if s == "d" then ⟨[("a.sh", false), ("b.sh", true)]⟩ else ⟨[]⟩ }

/-- A world in which the directory `d` contains only a subdirectory
named `x.py`. -/
def wPyDir : World :=
  { w0 with
    isDir := fun s => s == "d"
    listing := fun s => if s == "d" then ⟨[("x.py", false)]⟩ else ⟨[]⟩ }

/-- A world in which `shlex.split` raises on the unmatched-quote input
`a "b` (as the real `shlex.split` does: "No closing quotation"). -/
def wBadTok : World :=
  { w0 with
    tokenize := fun s => if s == "a \"b" then .error () else .ok [s] }

/-- A world in which the argument `python3 app.py` is a command with
`python3` installed, whose spawned process exits with code 0. -/
def wCmd : World :=
  { w0 with
    tokenize := fun s =>
      if s == "python3 app.py" then .ok ["python3", "app.py"] else .ok []
    which := fun s => if s == "python3" then some "/usr/bin/python3" else none
    versionOut := fun _ => some "Python 3.11.9"
    runOutcome := fun _ _ => .spawned (.exited 0) }

/-! ### Helper lemmas -/

/-- `toList` undoes `String.mk`. -/
theorem toList_mk (l : List Char) : (String.mk l).toList = l := rfl

/-- `dropWhile` never lengthens a list. -/
theorem length_dropWhile_le_len (p : Char → Bool) (l : List Char) :
    (l.dropWhile p).length ≤ l.length := by
  induction l with
  | nil => simp
  | cons c cs ih =>
    by_cases h : p c
    · rw [List.dropWhile_cons, if_pos h]
      exact Nat.le_succ_of_le ih
    · rw [List.dropWhile_cons, if_neg (by simp [h])]

/-- `dropWhile` is idempotent. -/
theorem dropWhile_dropWhile_same (p : Char → Bool) (l : List Char) :
    (l.dropWhile p).dropWhile p = l.dropWhile p := by
  induction l with
  | nil => rfl
  | cons c cs ih =>
    by_cases h : p c
    · simp [List.dropWhile_cons, h, ih]
    · simp [List.dropWhile_cons, h]

/-- A prefix of a list unchanged by `dropWhile` is itself unchanged. -/
theorem dropWhile_eq_self_of_front (p : Char → Bool) {l l' : List Char}
    (hl : l.dropWhile p = l) (hp : l' <+: l) : l'.dropWhile p = l' := by
  cases l' with
  | nil => rfl
  | cons a t =>
    obtain ⟨s, hs⟩ := hp
    subst hs
    by_cases h : p a
    · exfalso
      rw [List.cons_append, List.dropWhile_cons, if_pos h] at hl
      have hle := length_dropWhile_le_len p (t ++ s)
      rw [hl] at hle
      simp at hle
    · simp [List.dropWhile_cons, h]

/-- The reverse of a suffix is a prefix of the reverse. -/
theorem reverse_pref_of_suff {l1 l2 : List Char} (h : l1 <:+ l2) :
    l1.reverse <+: l2.reverse := by
  obtain ⟨s, hs⟩ := h
  subst hs
  exact ⟨s.reverse, by simp⟩

/-- `stripL` is idempotent. -/
theorem stripL_idem (l : List Char) : stripL (stripL l) = stripL l := by
  have hAfc : (l.dropWhile pyIsSpace).dropWhile pyIsSpace = l.dropWhile pyIsSpace :=
    dropWhile_dropWhile_same pyIsSpace l
  have hpre : stripL l <+: l.dropWhile pyIsSpace := by
    have h : List.dropWhile pyIsSpace (l.dropWhile pyIsSpace).reverse <:+
        (l.dropWhile pyIsSpace).reverse := List.dropWhile_suffix pyIsSpace
    have h2 := reverse_pref_of_suff h
    simpa [stripL] using h2
  have hufc : (stripL l).dropWhile pyIsSpace = stripL l :=
    dropWhile_eq_self_of_front pyIsSpace hAfc hpre
  show (((stripL l).dropWhile pyIsSpace).reverse.dropWhile pyIsSpace).reverse = stripL l
  rw [hufc]
  rw [show (stripL l).reverse = (l.dropWhile pyIsSpace).reverse.dropWhile pyIsSpace from by
    simp [stripL]]
  rw [dropWhile_dropWhile_same]
  simp [stripL]

/-- `pyStrip` is idempotent (Python `strip` applied twice). -/
theorem pyStrip_idem (s : String) : pyStrip (pyStrip s) = pyStrip s := by
  show String.mk (stripL (String.mk (stripL s.toList)).toList) = String.mk (stripL s.toList)
  rw [toList_mk, stripL_idem]

/-- The sanitized log line never exceeds 240 characters. -/
theorem sanitizeLine_length_le (line : String) : (sanitizeLine line).length ≤ 240 := by
  show (((stripL line.toList).map _).take 240).length ≤ 240
  rw [List.length_take]
  exact min_le_left _ _

/-- The sanitized log line contains no newline character. -/
theorem sanitizeLine_no_newline (line : String) : '\n' ∉ (sanitizeLine line).toList := by
  intro hmem
  rw [show (sanitizeLine line).toList =
      (((stripL line.toList).map (fun c => if c = '\n' then ' ' else c)).take 240) from rfl]
      at hmem
  have h2 := List.mem_of_mem_take hmem
  obtain ⟨a, _, ha⟩ := List.mem_map.mp h2
  by_cases h : a = '\n'
  · rw [if_pos h] at ha
    exact absurd ha (by decide)
  · rw [if_neg h] at ha
    exact h ha

/-- The dependency probe is a no-op for targets with no base directory
(command-kind targets have no path and no entry point). -/
theorem probe_ok_of_command (w : World) (t : Target)
    (hk : t.kind = "command") (he : t.entrypoint = none) :
    python_deps_probe_from_requirements w t = .ok [] := by
  unfold python_deps_probe_from_requirements targetBase
  rw [hk, he]
  by_cases hr : t.runtime ≠ some "python" <;> simp [hr]

/-! ### Claim theorems -/

/-- Claim C1 (confirmed): the run attempt returns Success exactly when
the process exits within the timeout with code 0 or is still running at
timeout expiry, and Failure exactly when it exits with a nonzero code,
spawning fails for any reason, or the wait raises any other error. -/
theorem C1_run_attempt_verdict (w : World) (cmd : List String) (cwd : Option String) :
    ((run_attempt w cmd cwd).1 = true ↔
      (w.runOutcome cmd cwd = .spawned (.exited 0) ∨
        w.runOutcome cmd cwd = .spawned .timeoutExpired)) ∧
    ((run_attempt w cmd cwd).1 = false ↔
      ((∃ c, c ≠ 0 ∧ w.runOutcome cmd cwd = .spawned (.exited c)) ∨
        w.runOutcome cmd cwd = .fileNotFound ∨
        w.runOutcome cmd cwd = .spawnError ∨
        w.runOutcome cmd cwd = .spawned .waitError)) := by
  unfold run_attempt
  rcases h : w.runOutcome cmd cwd with _ | _ | wo
  · simp [h]
  · simp [h]
  · rcases wo with code | _ | _
    · by_cases hc : code = 0
      · subst hc
        simp [h]
      · simp [h, hc]
    · simp [h]
    · simp [h]

/-- Claim C4 counterexample: the claim says log entries are
control-character-sanitized, but a carriage return inside a fact
survives `Log.add` unchanged (only newlines are replaced). -/
theorem C4_counterexample :
    ((Log.mk []).add "a\rb").lines = ["a\rb"] ∧ containsControl "a\rb" = true := by
  exact ⟨rfl, rfl⟩

/-- Claim C4 as amended (entries are ≤240 characters with newlines
replaced by spaces — other control characters are not removed): the log
holds at most 10 entries, `add` only ever appends a single sanitized
entry, below capacity it always appends, and at capacity every add is
silently dropped with the existing entries kept unchanged. -/
theorem C4_log_invariants (lg : Log) (line : String) :
    ((lg.add line).lines = lg.lines ∨
      (lg.add line).lines = lg.lines ++ [sanitizeLine line]) ∧
    (sanitizeLine line).length ≤ 240 ∧
    '\n' ∉ (sanitizeLine line).toList ∧
    (lg.lines.length ≤ LOG_MAX_LINES → (lg.add line).lines.length ≤ LOG_MAX_LINES) ∧
    (lg.lines.length < LOG_MAX_LINES →
      (lg.add line).lines = lg.lines ++ [sanitizeLine line]) ∧
    (LOG_MAX_LINES ≤ lg.lines.length → lg.add line = lg) := by
  unfold Log.add
  by_cases hlen : lg.lines.length < LOG_MAX_LINES
  · refine ⟨Or.inr (by simp [hlen]), sanitizeLine_length_le line,
      sanitizeLine_no_newline line, ?_, fun _ => by simp [hlen], fun hge => ?_⟩
    · intro _
      simp [hlen]
      omega
    · omega
  · refine ⟨Or.inl (by simp [hlen]), sanitizeLine_length_le line,
      sanitizeLine_no_newline line, fun hle => by simp [hlen]; exact hle,
      fun hlt => absurd hlt hlen, fun _ => by simp [hlen]⟩

/-- Claim C4 witness: a log already holding 10 entries is returned
unchanged by a further add. -/
theorem C4_log_invariants_witness :
    (Log.mk ["1", "2", "3", "4", "5", "6", "7", "8", "9", "10"]).add "x"
      = Log.mk ["1", "2", "3", "4", "5", "6", "7", "8", "9", "10"] :=
  (C4_log_invariants (Log.mk ["1", "2", "3", "4", "5", "6", "7", "8", "9", "10"]) "x").2.2.2.2.2
    (by decide)

/-- Claim C5 counterexample: the claim says the fallback takes the
lexicographically first *file* matching `*.sh`, but the source's
`d.glob` does not require a regular file: in a directory whose entries
are a subdirectory `a.sh` and a regular file `b.sh`, the claim's rule
picks `b.sh` while the code returns `a.sh`. -/
theorem C5_counterexample :
    (wShDir.listing "d").entries = [("a.sh", false), ("b.sh", true)] ∧
    entrypointClaim (wShDir.listing "d") = some "b.sh" ∧
    (find_entrypoint_in_dir wShDir "d").1 = some "d/a.sh" := by
  refine ⟨rfl, by decide, by decide⟩

/-- Claim C5 as amended (the fallback takes the lexicographically first
directory entry of any type matching `*.sh`, then `*.js`, then `*.go`):
entry-point discovery tests the eight priority names in order, returns
the first present as a regular file, and otherwise falls back by
extension order. -/
theorem C5_entrypoint_discovery (w : World) (d : String) :
    (find_entrypoint_in_dir w d).1 =
      (entrypointAmended (w.listing d)).map (fun n => pjoin d n) := by
  unfold find_entrypoint_in_dir entrypointAmended
  rcases h1 : ENTRYPOINT_PATTERNS.find? (fun n => (w.listing d).hasRegularFile n) with _ | n
  · rcases h2 : [".sh", ".js", ".go"].findSome?
        (fun ext => lexMin ((w.listing d).globExtNames ext)) with _ | m
    · simp [h1, h2]
    · simp [h1, h2]
  · simp [h1]

/-- Claim C6 counterexample: the claim says an entry-point-less
directory with no manifest and no `*.py` *file* classifies as
unknown/unknown, but the source's `any(d.glob("*.py"))` also matches a
subdirectory named `x.py`, which the code classifies as
python/library. -/
theorem C6_counterexample :
    (wPyDir.listing "d").entries = [("x.py", false)] ∧
    (find_entrypoint_in_dir wPyDir "d").1 = none ∧
    (classify_project_dir wPyDir "d" none).1 = ("python", "library") ∧
    classifyDirClaim (wPyDir.listing "d") = ("unknown", "unknown") := by
  exact ⟨rfl, rfl, rfl, rfl⟩

/-- Claim C6 as amended (any directory entry of any type matching
`*.py` counts as python evidence): manifest classification of an
entry-point-less directory follows the exact precedence `package.json`
⇒ node/library, else `pyproject.toml` or any `*.py` entry ⇒
python/library, else `go.mod` ⇒ go/library, else unknown/unknown. -/
theorem C6_manifest_classification (w : World) (d : String) :
    (classify_project_dir w d none).1 = classifyDirAmended (w.listing d) := by
  unfold classify_project_dir classifyDirAmended dir_has
  by_cases h1 : (w.listing d).hasRegularFile "package.json" <;>
    by_cases h2 : (w.listing d).hasRegularFile "pyproject.toml" <;>
      by_cases h3 : dir_has_any_py (w.listing d) <;>
        by_cases h4 : (w.listing d).hasRegularFile "go.mod" <;>
          simp [h1, h2, h3, h4]

/-- Claim C3 (confirmed): the input classifier decides
command-versus-path exactly as the spec describes: a quote-wrapped
string is a path iff its unquoted content exists (errors count as
nonexistence); an unwrapped string with whitespace is a command unless
the whole trimmed string exists (errors count as "is a command");
anything else is a path. -/
theorem C3_input_classifier (ex : String → Option Bool) (raw : String) :
    is_command_input ex raw = is_command_claim ex raw := by
  have hbang : ∀ o : Option Bool, existsToCommand o = !(o == some true) := by
    intro o
    rcases o with _ | b
    · rfl
    · cases b <;> rfl
  unfold is_command_input is_command_claim unquote_if_wrapped
  dsimp only
  rw [pyStrip_idem]
  by_cases hC : wrappedCond (pyStrip raw).toList = true
  · simp only [hC, if_true, hbang]
  · simp only [Bool.not_eq_true] at hC
    simp only [hC, if_false, Bool.false_eq_true, hbang]

/-- `mainModel` on a single argument is the pipeline body. -/
theorem mainModel_singleton (w : World) (arg : String) :
    mainModel w [arg] = mainPipeline w arg := by
  unfold mainModel
  simp [List.headD]

/-- Structure of command-kind targets produced by `parse_target`:
no entry point, no path, and either the malformed shape (no tokens,
runtime unknown, projectType unknown) or the well-formed shape (the
shell-split tokens, inferred runtime, projectType app). -/
theorem parse_command_shape (w : World) (raw : String)
    (h : (parse_target w raw).1.kind = "command") :
    (parse_target w raw).1.entrypoint = none ∧
    (parse_target w raw).1.path = none ∧
    (((parse_target w raw).1.command = none ∧
        (parse_target w raw).1.runtime = some "unknown" ∧
        (parse_target w raw).1.project_type = "unknown") ∨
      (∃ c, c ≠ [] ∧ w.tokenize (effRaw w raw) = .ok c ∧
        (parse_target w raw).1.command = some c ∧
        (parse_target w raw).1.runtime = some (guess_runtime_from_command c) ∧
        (parse_target w raw).1.project_type = "app")) := by
  unfold parse_target at h ⊢
  dsimp only at h ⊢
  by_cases hc : is_command_input w.fsExists (effRaw w raw) = true
  · rw [if_pos hc] at h ⊢
    rcases ht : w.tokenize (effRaw w raw) with e | toks
    · exact ⟨rfl, rfl, Or.inl ⟨rfl, rfl, rfl⟩⟩
    · cases toks with
      | nil => exact ⟨rfl, rfl, Or.inl ⟨rfl, rfl, rfl⟩⟩
      | cons a as =>
        exact ⟨rfl, rfl, Or.inr ⟨a :: as, by simp, rfl, rfl, rfl, rfl⟩⟩
  · exfalso
    rw [if_neg hc] at h
    by_cases hf : w.isFile (effRaw w raw) = true
    · rw [if_pos hf] at h
      have h2 : ("file" : String) = "command" := h
      exact absurd h2 (by decide)
    · rw [if_neg hf] at h
      by_cases hd : w.isDir (effRaw w raw) = true
      · rw [if_pos hd] at h
        have h2 : ("dir" : String) = "command" := h
        exact absurd h2 (by decide)
      · rw [if_neg hd] at h
        have h2 : ("file" : String) = "command" := h
        exact absurd h2 (by decide)

/-- Claim C2 counterexample: the claim says no subprocess of any kind
is created before the Success emission for a library target, but the
program always spawns the runtime version probe (`node --version`
here) before the library short-circuit: this successful library run's
spawn trace is nonempty. -/
theorem C2_counterexample :
    (mainModel wLib ["lib"]).outcome = .emitted "SUCCESS" 0 ∧
    (parse_target wLib "lib").1.project_type = "library" ∧
    (mainModel wLib ["lib"]).spawns =
      [.versionProbe ["/usr/bin/node", "--version"] (some "v20.0.0")] := by
  exact ⟨rfl, rfl, rfl⟩

/-- Claim C2 as amended: a library-typed target (with known runtime
and resolved runtime executable, and a non-crashing dependency probe)
always yields Success without ever invoking the Run Orchestrator — the
only subprocess created before the Success emission is the runtime
version probe. -/
theorem C2_library_short_circuit (w : World) (arg exe : String)
    (h1 : (parse_target w arg).1.project_type = "library")
    (h2 : pyOr (parse_target w arg).1.runtime "unknown" ≠ "unknown")
    (h3 : which_runtime w (pyOr (parse_target w arg).1.runtime "unknown") = some exe)
    (h4 : ∃ L, python_deps_probe_from_requirements w (parse_target w arg).1 = Except.ok L) :
    (mainModel w [arg]).outcome = Outcome.emitted "SUCCESS" 0 ∧
    (mainModel w [arg]).spawns =
      [SpawnEvent.versionProbe [exe, "--version"] (w.versionOut exe)] := by
  obtain ⟨L, hL⟩ := h4
  rw [mainModel_singleton]
  unfold mainPipeline
  dsimp only
  rw [if_neg h2, h3]
  dsimp only
  rw [hL]
  dsimp only
  rw [if_pos h1]
  exact ⟨rfl, rfl⟩

/-- Claim C2 witness: the amended theorem applied to the concrete
library world `wLib`. -/
theorem C2_library_short_circuit_witness :
    (mainModel wLib ["lib"]).outcome = Outcome.emitted "SUCCESS" 0 ∧
    (mainModel wLib ["lib"]).spawns =
      [SpawnEvent.versionProbe ["/usr/bin/node", "--version"] (wLib.versionOut "/usr/bin/node")] :=
  C2_library_short_circuit wLib "lib" "/usr/bin/node" (by decide) (by decide) (by decide)
    ⟨[], rfl⟩

/-- Claim C10 (confirmed): a well-formed command-kind target that
reaches the run attempt spawns exactly the user's shell-split token
list, in the caller's working directory (`cwd = none`); the resolved
runtime executable appears only in the version probe, never in the run
command. -/
theorem C10_command_spawn (w : World) (raw exe : String) (cmd : List String)
    (hk : (parse_target w raw).1.kind = "command")
    (hc : (parse_target w raw).1.command = some cmd)
    (h2 : pyOr (parse_target w raw).1.runtime "unknown" ≠ "unknown")
    (h3 : which_runtime w (pyOr (parse_target w raw).1.runtime "unknown") = some exe) :
    (mainModel w [raw]).spawns =
      [SpawnEvent.versionProbe [exe, "--version"] (w.versionOut exe),
       SpawnEvent.run cmd none (w.runOutcome cmd none)] ∧
    (mainModel w [raw]).outcome =
      Outcome.emitted (if (run_attempt w cmd none).1 then "SUCCESS" else "FAIL")
        (if (run_attempt w cmd none).1 then 0 else 1) := by
  obtain ⟨hep, hpath, hshape⟩ := parse_command_shape w raw hk
  have hprobe : python_deps_probe_from_requirements w (parse_target w raw).1 = .ok [] :=
    probe_ok_of_command w _ hk hep
  rcases hshape with ⟨hcn, _, _⟩ | ⟨c, hcne, htok, hcs, hrt, hpt⟩
  · rw [hcn] at hc
    exact absurd hc (by simp)
  · have hceq : c = cmd := by
      rw [hcs] at hc
      exact Option.some.inj hc
    subst hceq
    rw [mainModel_singleton]
    unfold mainPipeline
    dsimp only
    rw [if_neg h2, h3]
    dsimp only
    rw [hprobe]
    dsimp only
    rw [if_neg (by rw [hpt]; decide), if_pos hk]
    have hbuild : build_run_command w (parse_target w raw).1 none = (some c, []) := by
      unfold build_run_command
      rw [if_pos hk, hcs]
      cases c with
      | nil => exact absurd rfl hcne
      | cons x xs => rfl
    rw [hbuild]
    exact ⟨rfl, rfl⟩

/-- Claim C10 witness: the theorem applied to the concrete command
world `wCmd` and the argument `python3 app.py`. -/
theorem C10_command_spawn_witness :
    (mainModel wCmd ["python3 app.py"]).spawns =
      [SpawnEvent.versionProbe ["/usr/bin/python3", "--version"]
        (wCmd.versionOut "/usr/bin/python3"),
       SpawnEvent.run ["python3", "app.py"] none
        (wCmd.runOutcome ["python3", "app.py"] none)] ∧
    (mainModel wCmd ["python3 app.py"]).outcome =
      Outcome.emitted
        (if (run_attempt wCmd ["python3", "app.py"] none).1 then "SUCCESS" else "FAIL")
        (if (run_attempt wCmd ["python3", "app.py"] none).1 then 0 else 1) :=
  C10_command_spawn wCmd "python3 app.py" "/usr/bin/python3" ["python3", "app.py"]
    (by decide) (by decide) (by decide) (by decide)

/-- Claim C9 counterexample: the input `a "b` (with a space and an
unmatched quote, nothing existing on disk) is classified as a command,
but `shlex.split` raises on it and the resulting command-kind target
has projectType `unknown`, not `app` as the claim states for every
input classified as a command. -/
theorem C9_counterexample :
    is_command_input wBadTok.fsExists (effRaw wBadTok "a \"b") = true ∧
    wBadTok.tokenize (effRaw wBadTok "a \"b") = .error () ∧
    (parse_target wBadTok "a \"b").1.kind = "command" ∧
    (parse_target wBadTok "a \"b").1.project_type = "unknown" ∧
    ("unknown" : String) ≠ "app" := by
  exact ⟨rfl, rfl, rfl, rfl, by decide⟩

/-- Claim C9 as amended: an input classified as a command yields
projectType `app` whenever tokenization succeeds with a non-empty
token list; a tokenization error or an empty token list instead yields
the malformed command-kind target (no command tokens, runtime unknown,
projectType unknown), on which the pipeline fails. -/
theorem C9_command_classification (w : World) (raw : String)
    (h : is_command_input w.fsExists (effRaw w raw) = true) :
    ((w.tokenize (effRaw w raw) = .error () ∨ w.tokenize (effRaw w raw) = .ok []) →
      (parse_target w raw).1 = { kind := "command", runtime := some "unknown" } ∧
      (mainModel w [raw]).outcome = .emitted "FAIL" 1) ∧
    (∀ c, w.tokenize (effRaw w raw) = .ok c → c ≠ [] →
      (parse_target w raw).1.kind = "command" ∧
      (parse_target w raw).1.project_type = "app") := by
  constructor
  · intro hbad
    have hparse : (parse_target w raw).1 =
        { kind := "command", runtime := some "unknown" } := by
      unfold parse_target
      dsimp only
      rw [if_pos h]
      rcases hbad with hb | hb <;> rw [hb]
    refine ⟨hparse, ?_⟩
    rw [mainModel_singleton]
    unfold mainPipeline
    dsimp only
    rw [if_pos (by rw [hparse]; decide)]
  · intro c hok hne
    unfold parse_target
    dsimp only
    rw [if_pos h, hok]
    cases c with
    | nil => exact absurd rfl hne
    | cons a as => exact ⟨rfl, rfl⟩

/-- Claim C9 witness: the amended theorem applied to the concrete
world `wBadTok` and the unmatched-quote input, whose tokenization
errors. -/
theorem C9_command_classification_witness :
    (parse_target wBadTok "a \"b").1 = { kind := "command", runtime := some "unknown" } ∧
    (mainModel wBadTok ["a \"b"]).outcome = .emitted "FAIL" 1 :=
  (C9_command_classification wBadTok "a \"b" (by decide)).1 (Or.inl rfl)

/-- Claim C7, evaluation at the failing input: for the python app
directory `app` whose `requirements.txt` consists of the single line
`;x`, the dependency probe does not merely log — it raises an uncaught
`IndexError` (`name.split()[0]` on the empty name before `;`), so the
probe can alter the outcome, contradicting the claim. -/
theorem C7_probe_crash :
    (parse_target wReq "app").1.runtime = some "python" ∧
    (parse_target wReq "app").1.project_type = "app" ∧
    python_deps_probe_from_requirements wReq (parse_target wReq "app").1 = .error () := by
  exact ⟨rfl, rfl, rfl⟩

/-- Claim C8, evaluation at the failing input: the same uncaught
`IndexError` escapes `main`, so this invocation terminates with a
traceback and never prints the single SUCCESS/FAIL line the claim
requires on every input. -/
theorem C8_crash_no_verdict :
    (mainModel wReq ["app"]).outcome = .crashed := rfl

end Envcheck
